import Mathlib

/-!
Verification of the HouseCall webhook relay (src/Housecall.py, src/app.py).

The development shallowly embeds the two Python request handlers and their
helper functions.  Python dictionaries parsed from JSON are modelled by the
`Json` inductive; Python exceptions by the `PyExc` type carried in `Except`;
the outbound chat POSTs performed by a handler are returned as an explicit
list so that theorems can talk about them.  HMAC-SHA256 is implemented in
full (bytes as `Nat` below 256, words as `Nat` reduced modulo `2 ^ 32`), as
is the subset of Python's `json.dumps` / `json.loads` the service exercises.
-/

namespace HouseCall

/-- Python exceptions that the two handlers can raise.  `badRequest` stands
for the `werkzeug` `BadRequest` raised by Flask's `request.get_json()` on a
malformed body (Flask turns it into a 400 response); every other constructor
is a plain Python exception, which Flask turns into a 500 response. -/
inductive PyExc where
  | badRequest
  | typeError
  | keyError (key : String)
  | attributeError
  | valueError
  | exception (msg : String)
  deriving Repr, DecidableEq

/-- JSON values as produced by `json.loads` (numbers restricted to integers:
every numeric literal this service touches is an integer). -/
inductive Json where
  | null
  | bool (b : Bool)
  | num (n : Int)
  | str (s : String)
  | arr (elems : List Json)
  | obj (fields : List (String × Json))

namespace Json

/-- Key lookup in an object's field list (first occurrence; objects built by
`jsonLoads` have distinct keys because later duplicates overwrite). -/
def lookup (fields : List (String × Json)) (k : String) : Option Json :=
  match fields with
  | [] => none
  | (k', v) :: rest => if k' = k then some v else lookup rest k

/-- Python truthiness of a decoded JSON value (`if address:` etc.):
`None`, `False`, `0`, `""`, `[]`, `{}` are falsy. -/
def truthy : Json → Bool
  | null => false
  | bool b => b
  | num n => n != 0
  | str s => s != ""
  | arr elems => !elems.isEmpty
  | obj fields => !fields.isEmpty

/-- Python's `d.get(k, default)`: only dictionaries have `.get`; calling it
on any other value raises `AttributeError`. -/
def pyGetD (j : Json) (k : String) (default : Json) : Except PyExc Json :=
  match j with
  | obj fields => .ok ((lookup fields k).getD default)
  | _ => .error .attributeError

/-- Python's `d.get(k)` (default `None`). -/
def pyGet (j : Json) (k : String) : Except PyExc Json :=
  j.pyGetD k null

/-- Python's `d[k]`: `KeyError` when the key is absent, `TypeError`-ish
failure when the receiver is not a dictionary (modelled as `typeError`). -/
def pyIndex (j : Json) (k : String) : Except PyExc Json :=
  match j with
  | obj fields =>
    match lookup fields k with
    | some v => .ok v
    | none => .error (.keyError k)
  | _ => .error .typeError

end Json

/-! ## Python `str()` of decoded JSON values

Used by the f-string interpolations (`f"job-{job.get(.., ..)}"` and the
like).  For strings `str` is the identity; containers render via `repr`,
with strings single-quoted. -/

mutual

/-- `repr()` of a decoded JSON value (the form used inside containers). -/
def pyRepr : Json → String
  | .null => "None"
  | .bool b => if b then "True" else "False"
  | .num n => toString n
  | .str s => "\x27" ++ s ++ "\x27"
  | .arr elems => "[" ++ pyReprList elems ++ "]"
  | .obj fields => "\x7b" ++ pyReprFields fields ++ "\x7d"

def pyReprList : List Json → String
  | [] => ""
  | [x] => pyRepr x
  | x :: xs => pyRepr x ++ ", " ++ pyReprList xs

def pyReprFields : List (String × Json) → String
  | [] => ""
  | [(k, v)] => "\x27" ++ k ++ "\x27: " ++ pyRepr v
  | (k, v) :: xs => "\x27" ++ k ++ "\x27: " ++ pyRepr v ++ ", " ++ pyReprFields xs

end

/-- Python `str()` of a decoded JSON value. -/
def pyStr : Json → String
  | .str s => s
  | j => pyRepr j

/-- `f"{x}"` where `x` is an optional header value (`None` renders as
the four characters `None`). -/
def pyStrOpt : Option String → String
  | none => "None"
  | some s => s

/-! ## `json.dumps` (default arguments)

Default separators are `", "` between items and `": "` between a key and its
value; `ensure_ascii=True` escapes every non-ASCII character as `\uXXXX`. -/

/-- Lowercase hex digit for a value below 16. -/
def hexDigit (n : Nat) : Char :=
  if n < 10 then Char.ofNat (48 + n) else Char.ofNat (87 + n)

/-- Four-digit lowercase hex rendering used by `\uXXXX` escapes. -/
def hex4 (n : Nat) : String :=
  String.mk [hexDigit (n / 4096 % 16), hexDigit (n / 256 % 16),
             hexDigit (n / 16 % 16), hexDigit (n % 16)]

/-- `json.dumps` escaping of one character of a string. -/
def dumpsChar (c : Char) : String :=
  if c = '"' then "\\\""
  else if c = '\\' then "\\\\"
  else if c = '\n' then "\\n"
  else if c = '\r' then "\\r"
  else if c = '\t' then "\\t"
  else if c = '\x08' then "\\b"
  else if c = '\x0c' then "\\f"
  else if c.toNat < 0x20 then "\\u" ++ hex4 c.toNat
  else if c.toNat < 0x7f then String.mk [c]
  else if c.toNat < 0x10000 then "\\u" ++ hex4 c.toNat
  else
    "\\u" ++ hex4 (0xd800 + (c.toNat - 0x10000) / 0x400) ++
    "\\u" ++ hex4 (0xdc00 + (c.toNat - 0x10000) % 0x400)

/-- `json.dumps` rendering of a string literal. -/
def dumpsStr (s : String) : String :=
  "\"" ++ String.join (s.data.map dumpsChar) ++ "\""

mutual

/-- `json.dumps(value)` with default arguments. -/
def jsonDumps : Json → String
  | .null => "null"
  | .bool b => if b then "true" else "false"
  | .num n => toString n
  | .str s => dumpsStr s
  | .arr elems => "[" ++ jsonDumpsList elems ++ "]"
  | .obj fields => "\x7b" ++ jsonDumpsFields fields ++ "\x7d"

def jsonDumpsList : List Json → String
  | [] => ""
  | [x] => jsonDumps x
  | x :: xs => jsonDumps x ++ ", " ++ jsonDumpsList xs

def jsonDumpsFields : List (String × Json) → String
  | [] => ""
  | [(k, v)] => dumpsStr k ++ ": " ++ jsonDumps v
  | (k, v) :: xs => dumpsStr k ++ ": " ++ jsonDumps v ++ ", " ++ jsonDumpsFields xs

end

/-! ## `json.loads`

A recursive-descent decoder for the JSON subset this service exchanges
(integral numbers only; fractional and exponent forms, accepted by Python as
floats, are rejected here, as are lone UTF-16 surrogates — neither occurs in
any webhook payload).  Decoding failure is Python's `ValueError`
(`json.JSONDecodeError`).  Nesting is handled with a fuel argument sized off
the input length. -/

/-- JSON whitespace. -/
def isWs (c : Char) : Bool :=
  c = ' ' || c = '\t' || c = '\n' || c = '\r'

/-- Drop leading JSON whitespace. -/
def skipWs : List Char → List Char
  | [] => []
  | c :: cs => if isWs c then skipWs cs else c :: cs

/-- Value of a hex digit. -/
def hexVal (c : Char) : Except PyExc Nat :=
  if '0' ≤ c ∧ c ≤ '9' then .ok (c.toNat - 48)
  else if 'a' ≤ c ∧ c ≤ 'f' then .ok (c.toNat - 87)
  else if 'A' ≤ c ∧ c ≤ 'F' then .ok (c.toNat - 55)
  else .error .valueError

/-- Decode the body of a JSON string literal (opening quote already
consumed), returning the decoded characters and the remaining input. -/
def loadsStr : List Char → Except PyExc (List Char × List Char)
  | [] => .error .valueError
  | '"' :: cs => .ok ([], cs)
  | '\\' :: 'u' :: a :: b :: c :: d :: cs => do
    let n := (← hexVal a) * 4096 + (← hexVal b) * 256 + (← hexVal c) * 16 + (← hexVal d)
    if 0xd800 ≤ n ∧ n < 0xdc00 then
      match cs with
      | '\\' :: 'u' :: a' :: b' :: c' :: d' :: cs' => do
        let m := (← hexVal a') * 4096 + (← hexVal b') * 256 + (← hexVal c') * 16 + (← hexVal d')
        if 0xdc00 ≤ m ∧ m < 0xe000 then
          let cp := 0x10000 + (n - 0xd800) * 0x400 + (m - 0xdc00)
          let (rest, after) ← loadsStr cs'
          .ok (Char.ofNat cp :: rest, after)
        else .error .valueError
      | _ => .error .valueError
    else if n < 0xd800 ∨ 0xe000 ≤ n then do
      let (rest, after) ← loadsStr cs
      .ok (Char.ofNat n :: rest, after)
    else .error .valueError
  | '\\' :: e :: cs => do
    let c ← (match e with
      | '"' => .ok '"'
      | '\\' => .ok '\\'
      | '/' => .ok '/'
      | 'b' => .ok '\x08'
      | 'f' => .ok '\x0c'
      | 'n' => .ok '\n'
      | 'r' => .ok '\r'
      | 't' => .ok '\t'
      | _ => .error .valueError)
    let (rest, after) ← loadsStr cs
    .ok (c :: rest, after)
  | c :: cs =>
    if c.toNat < 0x20 then .error .valueError
    else do
      let (rest, after) ← loadsStr cs
      .ok (c :: rest, after)

/-- Split off a maximal run of decimal digits. -/
def takeDigits : List Char → List Char × List Char
  | [] => ([], [])
  | c :: cs =>
    if c.isDigit then
      let (ds, rest) := takeDigits cs
      (c :: ds, rest)
    else ([], c :: cs)

/-- Numeric value of a digit run. -/
def digitsToNat (ds : List Char) : Nat :=
  ds.foldl (fun acc c => acc * 10 + (c.toNat - 48)) 0

/-- Decode an unsigned JSON integer (leading zeros rejected; a following
`.`, `e` or `E` would make it a float, which this model rejects). -/
def loadsNat (cs : List Char) : Except PyExc (Nat × List Char) :=
  match takeDigits cs with
  | ([], _) => .error .valueError
  | (ds, rest) =>
    if ds.head? = some '0' ∧ ds.length > 1 then .error .valueError
    else match rest with
      | '.' :: _ => .error .valueError
      | 'e' :: _ => .error .valueError
      | 'E' :: _ => .error .valueError
      | _ => .ok (digitsToNat ds, rest)

/-- Add one decoded object member, matching CPython dict assignment:
an existing key keeps its position and takes the new value. -/
def insertField : List (String × Json) → String → Json → List (String × Json)
  | [], k, v => [(k, v)]
  | (k', v') :: rest, k, v =>
    if k' = k then (k', v) :: rest else (k', v') :: insertField rest k v

mutual

/-- Decode one JSON value. -/
def loadsVal : Nat → List Char → Except PyExc (Json × List Char)
  | 0, _ => .error .valueError
  | fuel + 1, cs =>
    match skipWs cs with
    | 'n' :: 'u' :: 'l' :: 'l' :: rest => .ok (.null, rest)
    | 't' :: 'r' :: 'u' :: 'e' :: rest => .ok (.bool true, rest)
    | 'f' :: 'a' :: 'l' :: 's' :: 'e' :: rest => .ok (.bool false, rest)
    | '"' :: rest => do
      let (chars, after) ← loadsStr rest
      .ok (.str (String.mk chars), after)
    | '[' :: rest =>
      (match skipWs rest with
       | ']' :: after => .ok (.arr [], after)
       | other => do
         let (elems, after) ← loadsArrItems fuel other
         .ok (.arr elems, after))
    | '\x7b' :: rest =>
      (match skipWs rest with
       | '\x7d' :: after => .ok (.obj [], after)
       | other => do
         let (fields, after) ← loadsObjItems fuel other []
         .ok (.obj fields, after))
    | '-' :: rest => do
      let (n, after) ← loadsNat rest
      .ok (.num (-(n : Int)), after)
    | c :: rest =>
      if c.isDigit then do
        let (n, after) ← loadsNat (c :: rest)
        .ok (.num (n : Int), after)
      else .error .valueError
    | [] => .error .valueError

/-- Decode the members of a non-empty array, up to and including `]`. -/
def loadsArrItems : Nat → List Char → Except PyExc (List Json × List Char)
  | 0, _ => .error .valueError
  | fuel + 1, cs => do
    let (v, after) ← loadsVal fuel cs
    match skipWs after with
    | ',' :: rest => do
      let (vs, after') ← loadsArrItems fuel rest
      .ok (v :: vs, after')
    | ']' :: rest => .ok ([v], rest)
    | _ => .error .valueError

/-- Decode the members of a non-empty object, up to and including the
closing brace, accumulating fields with `insertField`. -/
def loadsObjItems : Nat → List Char → List (String × Json) →
    Except PyExc (List (String × Json) × List Char)
  | 0, _, _ => .error .valueError
  | fuel + 1, cs, acc =>
    match skipWs cs with
    | '"' :: rest => do
      let (kChars, afterKey) ← loadsStr rest
      match skipWs afterKey with
      | ':' :: afterColon => do
        let (v, afterVal) ← loadsVal fuel afterColon
        let acc' := insertField acc (String.mk kChars) v
        (match skipWs afterVal with
         | ',' :: rest' => loadsObjItems fuel rest' acc'
         | '\x7d' :: rest' => .ok (acc', rest')
         | _ => .error .valueError)
      | _ => .error .valueError
    | _ => .error .valueError

end

/-- `json.loads(s)`: decode one value and require only whitespace after. -/
def jsonLoads (s : String) : Except PyExc Json := do
  let (v, rest) ← loadsVal (2 * s.length + 2) s.data
  match skipWs rest with
  | [] => .ok v
  | _ => .error .valueError

/-! ## UTF-8 and HMAC-SHA256

`str.encode()` produces UTF-8 bytes; `hmac.new(key, msg, hashlib.sha256)`
is implemented from FIPS 180-4 / RFC 2104, with bytes as `Nat < 256` and
32-bit words as `Nat` reduced modulo `2 ^ 32`. -/

/-- UTF-8 encoding of one code point. -/
def utf8Char (c : Char) : List Nat :=
  let n := c.toNat
  if n < 0x80 then [n]
  else if n < 0x800 then [0xc0 + n / 64, 0x80 + n % 64]
  else if n < 0x10000 then [0xe0 + n / 4096, 0x80 + n / 64 % 64, 0x80 + n % 64]
  else [0xf0 + n / 262144, 0x80 + n / 4096 % 64, 0x80 + n / 64 % 64, 0x80 + n % 64]

/-- `s.encode()`: UTF-8 bytes of a string. -/
def utf8 (s : String) : List Nat :=
  s.data.flatMap utf8Char

/-- 32-bit truncation. -/
def w32 (n : Nat) : Nat := n % 4294967296

/-- 32-bit right rotation. -/
def rotr (k x : Nat) : Nat :=
  w32 ((x >>> k) ||| (x <<< (32 - k)))

/-- SHA-256 round constants (FIPS 180-4, written in decimal). -/
def shaK : List Nat :=
  [1116352408, 1899447441, 3049323471, 3921009573,
   961987163, 1508970993, 2453635748, 2870763221,
   3624381080, 310598401, 607225278, 1426881987,
   1925078388, 2162078206, 2614888103, 3248222580,
   3835390401, 4022224774, 264347078, 604807628,
   770255983, 1249150122, 1555081692, 1996064986,
   2554220882, 2821834349, 2952996808, 3210313671,
   3336571891, 3584528711, 113926993, 338241895,
   666307205, 773529912, 1294757372, 1396182291,
   1695183700, 1986661051, 2177026350, 2456956037,
   2730485921, 2820302411, 3259730800, 3345764771,
   3516065817, 3600352804, 4094571909, 275423344,
   430227734, 506948616, 659060556, 883997877,
   958139571, 1322822218, 1537002063, 1747873779,
   1955562222, 2024104815, 2227730452, 2361852424,
   2428436474, 2756734187, 3204031479, 3329325298]

/-- SHA-256 initial hash value (FIPS 180-4, written in decimal). -/
def shaH0 : List Nat :=
  [1779033703, 3144134277, 1013904242, 2773480762,
   1359893119, 2600822924, 528734635, 1541459225]

/-- Big-endian 64-bit length field of the SHA-256 padding. -/
def lenBytes64 (n : Nat) : List Nat :=
  [n >>> 56 % 256, n >>> 48 % 256, n >>> 40 % 256, n >>> 32 % 256,
   n >>> 24 % 256, n >>> 16 % 256, n >>> 8 % 256, n % 256]

/-- SHA-256 message padding: append `0x80`, zeros to 56 mod 64, then the
bit length as a big-endian 64-bit integer. -/
def shaPad (msg : List Nat) : List Nat :=
  msg ++ [0x80] ++ List.replicate ((119 - msg.length % 64) % 64) 0 ++
    lenBytes64 (8 * msg.length)

/-- Pack four big-endian bytes into a word. -/
def packWord : List Nat → Nat
  | a :: b :: c :: d :: _ => a * 16777216 + b * 65536 + c * 256 + d
  | _ => 0

/-- Split a byte list into consecutive chunks of `k` bytes (fuel-based so
that the kernel can evaluate it; the fuel is sized off the list length). -/
def chunksF : Nat → Nat → List Nat → List (List Nat)
  | 0, _, _ => []
  | _, _, [] => []
  | fuel + 1, k, l => l.take k :: chunksF fuel k (l.drop k)

/-- Split a byte list into consecutive chunks of `k` bytes. -/
def chunks (k : Nat) (l : List Nat) : List (List Nat) :=
  if k = 0 then [] else chunksF l.length k l

/-- Extend 16 message-schedule words to 64. -/
def shaExtend (ws : List Nat) (i : Nat) : List Nat :=
  match i with
  | 0 => ws
  | i + 1 =>
    let t := shaExtend ws i
    let w15 := t.getD (i + 1) 0
    let w2 := t.getD (i + 14) 0
    let s0 := w32 (rotr 7 w15 ^^^ rotr 18 w15 ^^^ (w15 >>> 3))
    let s1 := w32 (rotr 17 w2 ^^^ rotr 19 w2 ^^^ (w2 >>> 10))
    t ++ [w32 (t.getD i 0 + s0 + t.getD (i + 9) 0 + s1)]

/-- One round of the SHA-256 compression function. -/
def shaRound (st : List Nat) (kw : Nat × Nat) : List Nat :=
  match st with
  | [a, b, c, d, e, f, g, h] =>
    let s1 := rotr 6 e ^^^ rotr 11 e ^^^ rotr 25 e
    let ch := (e &&& f) ^^^ ((w32 (4294967295 - e)) &&& g)
    let t1 := w32 (h + s1 + ch + kw.1 + kw.2)
    let s0 := rotr 2 a ^^^ rotr 13 a ^^^ rotr 22 a
    let mj := (a &&& b) ^^^ (a &&& c) ^^^ (b &&& c)
    let t2 := w32 (s0 + mj)
    [w32 (t1 + t2), a, b, c, w32 (d + t1), e, f, g]
  | st => st

/-- Compress one 64-byte block into the running hash state. -/
def shaBlock (st : List Nat) (block : List Nat) : List Nat :=
  let ws := shaExtend ((chunks 4 block).map packWord) 48
  let st' := (shaK.zip ws).foldl shaRound st
  (st.zip st').map fun p => w32 (p.1 + p.2)

/-- SHA-256 of a byte list, as 32 bytes. -/
def sha256 (msg : List Nat) : List Nat :=
  let final := (chunks 64 (shaPad msg)).foldl shaBlock shaH0
  final.flatMap fun word =>
    [word >>> 24 % 256, word >>> 16 % 256, word >>> 8 % 256, word % 256]

/-- Lowercase hex encoding of a byte list (`.hexdigest()`). -/
def bytesToHex (bytes : List Nat) : String :=
  String.mk (bytes.flatMap fun b => [hexDigit (b / 16 % 16), hexDigit (b % 16)])

/-- `hmac.new(key, msg, hashlib.sha256).digest()` (RFC 2104, block size
64): keys longer than a block are first hashed, then zero-padded. -/
def hmacSha256 (key msg : List Nat) : List Nat :=
  let k0 := if key.length > 64 then sha256 key else key
  let k := k0 ++ List.replicate (64 - k0.length) 0
  let ipad := k.map fun b => b ^^^ 0x36
  let opad := k.map fun b => b ^^^ 0x5c
  sha256 (opad ++ sha256 (ipad ++ msg))

/-- `hmac.new(secret.encode(), text.encode(), hashlib.sha256).hexdigest()`. -/
def hmacSha256Hex (secret text : String) : String :=
  bytesToHex (hmacSha256 (utf8 secret) (utf8 text))

/-- `hmac.compare_digest(a, b)` where `a` is the computed digest (a `str`)
and `b` is the header value (`str`, or `None` when the header is absent).
CPython requires both strings to be ASCII-only and raises `TypeError`
otherwise (or when `b` is `None`); functionally the comparison is string
equality, evaluated in constant time. -/
def compareDigest (a : String) (b : Option String) : Except PyExc Bool :=
  match b with
  | none => .error .typeError
  | some b =>
    if a.data.all (fun c => c.toNat < 128) ∧ b.data.all (fun c => c.toNat < 128) then
      .ok (a == b)
    else .error .typeError

/-! ## Shared Python helpers used by the handlers -/

/-- Truthiness of an environment variable (`not HOUSECALL_SIGNING_SECRET`):
unset (`None`) or empty are falsy. -/
def envTruthy : Option String → Bool
  | none => false
  | some s => s != ""

/-- Python `==` between a decoded JSON value and a string literal:
true exactly for an equal `str`, false for every other type. -/
def jsonEqStr (j : Json) (s : String) : Bool :=
  match j with
  | .str t => t == s
  | _ => false

/-- Python `s.startswith(p)` on strings: `p` is a prefix of `s`. -/
def startsWithPy (s p : String) : Bool :=
  p.data.isPrefixOf s.data

/-- Python `value.startswith(prefixStr)`: `AttributeError` unless `value`
is a `str`. -/
def pyStartsWith (j : Json) (p : String) : Except PyExc Bool :=
  match j with
  | .str t => .ok (startsWithPy t p)
  | _ => .error .attributeError

/-- Python iteration `for x in v`: lists yield elements, strings their
characters, dicts their keys; other values raise `TypeError`. -/
def pyIter : Json → Except PyExc (List Json)
  | .arr xs => .ok xs
  | .str s => .ok (s.data.map fun c => .str (String.mk [c]))
  | .obj fields => .ok (fields.map fun kv => .str kv.1)
  | _ => .error .typeError

/-- `", ".join(values)` over decoded JSON values: every element must be a
`str`, otherwise `TypeError`. -/
def pyJoin (sep : String) (parts : List Json) : Except PyExc String :=
  match parts with
  | [] => .ok ""
  | .str s :: rest => do
    let tail ← pyJoin sep rest
    .ok (if rest.isEmpty then s else s ++ sep ++ tail)
  | _ => .error .typeError

/-- Thousands grouping of a digit string (`format(n, ",d")` core): a comma
goes after a digit whenever a positive multiple of three digits follows. -/
def groupGo : List Char → List Char
  | [] => []
  | c :: cs =>
    c :: (if cs.length % 3 = 0 ∧ cs.length ≠ 0 then ',' :: groupGo cs else groupGo cs)

/-- Thousands grouping of a digit string. -/
def groupDigits (s : String) : String :=
  String.mk (groupGo s.data)

/-- Python `f"...{x:,.2f}"` applied to a decoded JSON value.  Integers (and
booleans, which are `int` in Python) format with thousands separators and
two decimals; strings raise `ValueError`, other types `TypeError`. -/
def formatMoney : Json → Except PyExc String
  | .num n =>
    .ok ((if n < 0 then "-" else "") ++ groupDigits (toString n.natAbs) ++ ".00")
  | .bool b => .ok (if b then "1.00" else "0.00")
  | .str _ => .error .valueError
  | _ => .error .valueError

/-- `requests.post(url, json=message)` followed by the status check both
handlers perform: the POST is recorded, and a non-200 status from the chat
platform raises `Exception`.  `chatStatus` is the status the chat webhook
would answer with. -/
def postAndCheck (url : String) (message : Json) (chatStatus : Nat) :
    List (String × Json) × Except PyExc Unit :=
  ([(url, message)],
   if chatStatus = 200 then .ok ()
   else .error (.exception "Failed to send to Google Chat"))

/-! ## src/Housecall.py — the early handler (verifies signatures)

`hcJobMessage` is the pure card construction inside
`send_chat_notification` (lines 67-121); the handler itself is
`hc_handle_webhook`.  Outbound POSTs are returned as an explicit list
alongside the handler outcome; `flaskResponse` is Flask's conversion of an
uncaught exception into an HTTP response (`BadRequest` from
`request.get_json()` becomes 400, anything else 500). -/

/-- Flask `request.get_json()`: decode the raw body, raising `BadRequest`
(→ 400) on a malformed one. -/
def getJson (raw : String) : Except PyExc Json :=
  match jsonLoads raw with
  | .ok v => .ok v
  | .error _ => .error .badRequest

/-- Line 42 of src/Housecall.py: the string whose UTF-8 bytes are HMAC'd,
`f"{timestamp}.{json.dumps(payload)}"`.  Note it re-serializes the parsed
payload rather than using the raw request body. -/
def signatureBody (timestamp : Option String) (payload : Json) : String :=
  pyStrOpt timestamp ++ "." ++ jsonDumps payload

/-- Lines 38-49 of src/Housecall.py assembled as the verification step the
spec calls `verify`: parse the body, HMAC the canonical string under the
secret, and compare with the provided signature header. -/
def verify (secret : String) (timestamp : Option String) (rawBody : String)
    (providedSignature : Option String) : Except PyExc Bool :=
  match getJson rawBody with
  | .error e => .error e
  | .ok payload =>
    compareDigest (hmacSha256Hex secret (signatureBody timestamp payload))
      providedSignature

/-- The card construction of `send_chat_notification` (src/Housecall.py
lines 67-121).  Direct `job[...]` indexing raises `KeyError` on missing
keys. -/
def hcJobMessage (job : Json) : Except PyExc Json := do
  let customer ← job.pyIndex "customer"
  let address ← job.pyIndex "address"
  let schedule ← job.pyIndex "schedule"
  let addressStr ←
    if address.truthy then do
      let street ← address.pyGet "street"
      let street2 ← address.pyGet "street_line_2"
      let city ← address.pyGet "city"
      let state ← address.pyGet "state"
      let zip ← address.pyGet "zip"
      pyJoin ", " (([street, street2, city, state, zip]).filter Json.truthy)
    else pure ""
  let scheduleStr ←
    if schedule.truthy then do
      let start ← schedule.pyGet "scheduled_start"
      if start.truthy then schedule.pyIndex "scheduled_start"
      else pure (.str "Unscheduled")
    else pure (.str "Unscheduled")
  let idVal ← job.pyGetD "id" (.str "unknown")
  let invoice ← job.pyGetD "invoice_number" (.str "N/A")
  let custFirst ← customer.pyIndex "first_name"
  let custLast ← customer.pyIndex "last_name"
  let custEmail ← customer.pyGetD "email" (.str "No email provided")
  let descr ← job.pyGetD "description" (.str "No description provided")
  let total ← job.pyGetD "total_amount" (.num 0)
  let totalStr ← formatMoney total
  pure (.obj [("cardsV2", .arr [.obj [
    ("cardId", .str ("job-" ++ pyStr idVal)),
    ("card", .obj [
      ("header", .obj [
        ("title", .str "New Job Created"),
        ("subtitle", .str ("Invoice #" ++ pyStr invoice))]),
      ("sections", .arr [
        .obj [
          ("header", .str "Customer Details"),
          ("widgets", .arr [.obj [("decoratedText", .obj [
            ("text", .str (pyStr custFirst ++ " " ++ pyStr custLast)),
            ("bottomLabel", custEmail)])]])],
        .obj [
          ("header", .str "Job Details"),
          ("widgets", .arr [
            .obj [("decoratedText", .obj [
              ("text", descr),
              ("bottomLabel", .str ("Total Amount: $" ++ totalStr))])],
            .obj [("decoratedText", .obj [
              ("text", .str addressStr),
              ("bottomLabel", .str ("Scheduled for: " ++ pyStr scheduleStr))])]])]])])]])])

/-- `send_chat_notification(job)` (src/Housecall.py lines 66-133): build
the card, POST it to the configured chat URL, and raise on a non-200
answer. -/
def send_chat_notification (job : Json) (chatUrl : String) (chatStatus : Nat) :
    List (String × Json) × Except PyExc Unit :=
  match hcJobMessage job with
  | .error e => ([], .error e)
  | .ok msg => postAndCheck chatUrl msg chatStatus

/-- `handle_webhook` of src/Housecall.py (lines 25-64).  Parameters mirror
the request context: the two environment variables, the two headers
(`None` when absent), the raw body, and the chat webhook's answering
status.  Returns the POSTs performed and the handler outcome (an uncaught
exception, or a `(body, status)` response). -/
def hc_handle_webhook (secret chatUrl : Option String)
    (timestamp providedSignature : Option String) (rawBody : String)
    (chatStatus : Nat) :
    List (String × Json) × Except PyExc (String × Nat) :=
  if ¬envTruthy secret ∨ ¬envTruthy chatUrl then
    ([], .ok ("Configuration error", 500))
  else
    match getJson rawBody with
    | .error e => ([], .error e)
    | .ok payload =>
      -- line 39 logs `payload.get('event')`, which needs a dictionary
      match payload.pyGet "event" with
      | .error e => ([], .error e)
      | .ok _ =>
        let calcSig := hmacSha256Hex (secret.getD "")
          (signatureBody timestamp payload)
        match compareDigest calcSig providedSignature with
        | .error e => ([], .error e)
        | .ok false => ([], .ok ("Invalid signature", 401))
        | .ok true =>
          match payload.pyIndex "event" with
          | .error e => ([], .error e)
          | .ok ev =>
            if jsonEqStr ev "job.created" then
              -- the try block covers both `payload['job']` and the send
              match payload.pyIndex "job" with
              | .error _ => ([], .ok ("Error processing webhook", 500))
              | .ok job =>
                match send_chat_notification job (chatUrl.getD "") chatStatus with
                | (posts, .error _) => (posts, .ok ("Error processing webhook", 500))
                | (posts, .ok ()) => (posts, .ok ("OK", 200))
            else ([], .ok ("OK", 200))

/-- Flask's translation of the handler outcome into an HTTP response:
normal returns pass through, an uncaught `BadRequest` becomes 400, any
other uncaught exception becomes 500. -/
def flaskResponse (r : List (String × Json) × Except PyExc (String × Nat)) :
    List (String × Json) × (String × Nat) :=
  match r with
  | (posts, .ok resp) => (posts, resp)
  | (posts, .error .badRequest) => (posts, ("Bad Request", 400))
  | (posts, .error _) => (posts, ("Internal Server Error", 500))

/-! ## src/app.py — the later handler (no signature check)

`format_time` wraps `datetime.fromisoformat` + `strftime`; the model
implements the `YYYY-MM-DD[<sep>HH:MM[:SS]][±HH:MM]` shapes the upstream
platform sends (other strings fall into the bare `except` and are returned
unchanged, exactly as in the source). -/

/-- Calendar datetime as validated by `datetime.fromisoformat`. -/
structure PyDateTime where
  year : Nat
  month : Nat
  day : Nat
  hour : Nat
  minute : Nat
  second : Nat

/-- Two decimal digits. -/
def d2 (a b : Char) : Option Nat :=
  if a.isDigit ∧ b.isDigit then some ((a.toNat - 48) * 10 + (b.toNat - 48))
  else none

/-- Days in a month, with Gregorian leap years (what the `datetime`
constructor validates against). -/
def daysInMonth (y m : Nat) : Nat :=
  if m = 2 then (if y % 4 = 0 ∧ (y % 100 ≠ 0 ∨ y % 400 = 0) then 29 else 28)
  else if m = 4 ∨ m = 6 ∨ m = 9 ∨ m = 11 then 30
  else 31

/-- A valid `±HH:MM` UTC-offset suffix (or no suffix). -/
def validOffset : List Char → Bool
  | [] => true
  | sign :: h1 :: h2 :: ':' :: m1 :: m2 :: [] =>
    (sign = '+' || sign = '-') &&
      (match d2 h1 h2, d2 m1 m2 with
       | some hh, some mm => decide (hh < 24 ∧ mm < 60)
       | _, _ => false)
  | _ => false

/-- The `HH:MM[:SS]` time part, followed by an optional offset. -/
def parseTimePart : List Char → Option (Nat × Nat × Nat)
  | h1 :: h2 :: ':' :: mi1 :: mi2 :: rest => do
    let hh ← d2 h1 h2
    let mm ← d2 mi1 mi2
    if hh < 24 ∧ mm < 60 then
      match rest with
      | ':' :: s1 :: s2 :: rest' => do
        let ss ← d2 s1 s2
        if ss < 60 ∧ validOffset rest' then some (hh, mm, ss) else none
      | rest' => if validOffset rest' then some (hh, mm, 0) else none
    else none
  | _ => none

/-- `datetime.fromisoformat` on the shapes this service receives:
`YYYY-MM-DD`, optionally a separator character and `HH:MM[:SS]`,
optionally `±HH:MM`. -/
def fromIso (s : String) : Option PyDateTime :=
  match s.data with
  | y1 :: y2 :: y3 :: y4 :: '-' :: mo1 :: mo2 :: '-' :: d1 :: dd2 :: rest => do
    let yh ← d2 y1 y2
    let yl ← d2 y3 y4
    let y := yh * 100 + yl
    let mo ← d2 mo1 mo2
    let d ← d2 d1 dd2
    if 1 ≤ y ∧ 1 ≤ mo ∧ mo ≤ 12 ∧ 1 ≤ d ∧ d ≤ daysInMonth y mo then
      match rest with
      | [] => some ⟨y, mo, d, 0, 0, 0⟩
      | _sep :: timePart => do
        let (hh, mm, ss) ← parseTimePart timePart
        some ⟨y, mo, d, hh, mm, ss⟩
    else none
  | _ => none

/-- English month name (`strftime` `%B`). -/
def monthName (m : Nat) : String :=
  (["January", "February", "March", "April", "May", "June", "July",
    "August", "September", "October", "November", "December"]).getD (m - 1) ""

/-- Zero-padded two digits. -/
def pad2 (n : Nat) : String :=
  if n < 10 then "0" ++ toString n else toString n

/-- Zero-padded four digits (`%Y`). -/
def pad4 (n : Nat) : String :=
  if n < 10 then "000" ++ toString n
  else if n < 100 then "00" ++ toString n
  else if n < 1000 then "0" ++ toString n
  else toString n

/-- `dt.strftime('%B %d, %Y at %I:%M %p')`. -/
def strftimeCard (dt : PyDateTime) : String :=
  monthName dt.month ++ " " ++ pad2 dt.day ++ ", " ++ pad4 dt.year ++ " at " ++
    pad2 (if dt.hour % 12 = 0 then 12 else dt.hour % 12) ++ ":" ++
    pad2 dt.minute ++ " " ++ (if dt.hour < 12 then "AM" else "PM")

/-- `format_time(time_str)` (src/app.py lines 24-32).  Falsy input gives
the placeholder; a parseable ISO string is prettified; anything else —
including a non-string, whose `.replace` raises inside the bare
`try`/`except` — is returned unchanged. -/
def format_time (t : Json) : Json :=
  if ¬t.truthy then .str "Not scheduled"
  else
    match t with
    | .str s =>
      match fromIso (s.replace "Z" "+00:00") with
      | some dt => .str (strftimeCard dt)
      | none => .str s
    | other => other

/-- A `decoratedText` widget. -/
def dtWidget (fields : List (String × Json)) : Json :=
  .obj [("decoratedText", .obj fields)]

/-- A `startIcon` value. -/
def icon (name : String) : Json :=
  .obj [("knownIcon", .str name)]

/-- Sequence a fallible construction over a list (Python `for` loop body
appending widgets). -/
def mapExcept (f : Json → Except PyExc Json) : List Json → Except PyExc (List Json)
  | [] => .ok []
  | x :: xs => do
    let y ← f x
    let ys ← mapExcept f xs
    .ok (y :: ys)

/-- The employee widget shared by the estimate formatter (lines 149-155)
and the appointment formatter (lines 329-335), which are textually
identical in the source. -/
def employeeWidget (emp : Json) : Except PyExc Json := do
  let fn ← emp.pyGetD "first_name" (.str "")
  let ln ← emp.pyGetD "last_name" (.str "")
  let mob ← emp.pyGetD "mobile_number" (.str "No phone provided")
  pure (dtWidget [
    ("text", .str (pyStr fn ++ " " ++ pyStr ln)),
    ("startIcon", icon "PERSON"),
    ("bottomLabel", mob)])

/-- The message dictionary literal of `process_estimate_scheduled`
(src/app.py lines 71-142 and 156-159), abstracted over the values read
from the payload. -/
def estimateCard (idVal estNum schedStart schedEnd arrival fn ln company
    email mobNum street street2 city state zipc atype : Json)
    (extraSections : List Json) : Json :=
  .obj [("cardsV2", .arr [.obj [
    ("cardId", .str ("estimate-" ++ pyStr idVal)),
    ("card", .obj [
      ("header", .obj [
        ("title", .str "New Estimate Scheduled"),
        ("subtitle", .str ("Estimate #" ++ pyStr estNum))]),
      ("sections", .arr ([
        .obj [
          ("header", .str "Schedule Details"),
          ("widgets", .arr [
            dtWidget [("text", .str ("Start: " ++ pyStr (format_time schedStart))),
                      ("startIcon", icon "CLOCK")],
            dtWidget [("text", .str ("End: " ++ pyStr (format_time schedEnd))),
                      ("startIcon", icon "SCHEDULE")],
            dtWidget [("text", .str ("Arrival Window: " ++ pyStr arrival ++ " minutes")),
                      ("startIcon", icon "TIMER")]])],
        .obj [
          ("header", .str "Customer Information"),
          ("widgets", .arr [
            dtWidget [("text", .str (pyStr fn ++ " " ++ pyStr ln)),
                      ("startIcon", icon "PERSON"),
                      ("bottomLabel", company)],
            dtWidget [("text", email), ("startIcon", icon "EMAIL")],
            dtWidget [("text", mobNum), ("startIcon", icon "PHONE")]])],
        .obj [
          ("header", .str "Location"),
          ("widgets", .arr [
            dtWidget [("text", .str (pyStr street ++ ", " ++ pyStr street2 ++ " " ++
                        pyStr city ++ ", " ++ pyStr state ++ " " ++ pyStr zipc)),
                      ("startIcon", icon "LOCATION_ON"),
                      ("bottomLabel", atype)]])]] ++ extraSections))])]])]

/-- The card built by `process_estimate_scheduled` (src/app.py lines
64-159). -/
def estimateMessage (payload : Json) : Except PyExc Json := do
  let estimate ← payload.pyGetD "estimate" (.obj [])
  let customer ← estimate.pyGetD "customer" (.obj [])
  let address ← estimate.pyGetD "address" (.obj [])
  let schedule ← estimate.pyGetD "schedule" (.obj [])
  let idVal ← estimate.pyGetD "id" (.str "unknown")
  let estNum ← estimate.pyGetD "estimate_number" (.str "N/A")
  let schedStart ← schedule.pyGet "scheduled_start"
  let schedEnd ← schedule.pyGet "scheduled_end"
  let arrival ← schedule.pyGetD "arrival_window" (.num 0)
  let fn ← customer.pyGetD "first_name" (.str "")
  let ln ← customer.pyGetD "last_name" (.str "")
  let company ← customer.pyGetD "company" (.str "No company")
  let email ← customer.pyGetD "email" (.str "No email provided")
  let homeNum ← customer.pyGetD "home_number" (.str "No phone provided")
  let mobNum ← customer.pyGetD "mobile_number" homeNum
  let street ← address.pyGetD "street" (.str "")
  let street2 ← address.pyGetD "street_line_2" (.str "")
  let city ← address.pyGetD "city" (.str "")
  let state ← address.pyGetD "state" (.str "")
  let zipc ← address.pyGetD "zip" (.str "")
  let atype ← address.pyGetD "type" (.str "service")
  let assigned ← estimate.pyGetD "assigned_employees" (.arr [])
  let extraSections ←
    if assigned.truthy then do
      let emps ← pyIter assigned
      let ws ← mapExcept employeeWidget emps
      pure [Json.obj [("header", .str "Assigned Employees"), ("widgets", .arr ws)]]
    else pure []
  pure (estimateCard idVal estNum schedStart schedEnd arrival fn ln company
    email mobNum street street2 city state zipc atype extraSections)

/-- The message dictionary literal of `process_job_created` (src/app.py
lines 170-236 and 249-252), abstracted over the values read from the
payload. -/
def jobCard (idVal invoice descr typeName workStatus fn ln company email
    mobNum street street2 city state zipc atype : Json)
    (extraSections : List Json) : Json :=
  .obj [("cardsV2", .arr [.obj [
    ("cardId", .str ("job-" ++ pyStr idVal)),
    ("card", .obj [
      ("header", .obj [
        ("title", .str "New Job Created"),
        ("subtitle", .str ("Invoice #" ++ pyStr invoice))]),
      ("sections", .arr ([
        .obj [
          ("header", .str "Job Details"),
          ("widgets", .arr [
            dtWidget [("text", descr),
                      ("startIcon", icon "DESCRIPTION"),
                      ("bottomLabel", .str ("Type: " ++ pyStr typeName))],
            dtWidget [("text", .str ("Status: " ++ pyStr workStatus)),
                      ("startIcon", icon "EVENT_AVAILABLE")]])],
        .obj [
          ("header", .str "Customer Information"),
          ("widgets", .arr [
            dtWidget [("text", .str (pyStr fn ++ " " ++ pyStr ln)),
                      ("startIcon", icon "PERSON"),
                      ("bottomLabel", company)],
            dtWidget [("text", email), ("startIcon", icon "EMAIL")],
            dtWidget [("text", mobNum), ("startIcon", icon "PHONE")]])],
        .obj [
          ("header", .str "Location"),
          ("widgets", .arr [
            dtWidget [("text", .str (pyStr street ++ ", " ++ pyStr street2 ++ " " ++
                        pyStr city ++ ", " ++ pyStr state ++ " " ++ pyStr zipc)),
                      ("startIcon", icon "LOCATION_ON"),
                      ("bottomLabel", atype)]])]] ++ extraSections))])]])]

/-- The card built by `process_job_created` (src/app.py lines 163-254). -/
def jobMessage (payload : Json) : Except PyExc Json := do
  let job ← payload.pyGetD "job" (.obj [])
  let customer ← job.pyGetD "customer" (.obj [])
  let address ← job.pyGetD "address" (.obj [])
  let jobFields ← job.pyGetD "job_fields" (.obj [])
  let jobType ← jobFields.pyGetD "job_type" (.obj [])
  let idVal ← job.pyGetD "id" (.str "unknown")
  let invoice ← job.pyGetD "invoice_number" (.str "N/A")
  let descr ← job.pyGetD "description" (.str "No description")
  let typeName ← jobType.pyGetD "name" (.str "Not specified")
  let workStatus ← job.pyGetD "work_status" (.str "Unknown")
  let fn ← customer.pyGetD "first_name" (.str "")
  let ln ← customer.pyGetD "last_name" (.str "")
  let company ← customer.pyGetD "company" (.str "No company")
  let email ← customer.pyGetD "email" (.str "No email provided")
  let homeNum ← customer.pyGetD "home_number" (.str "No phone provided")
  let mobNum ← customer.pyGetD "mobile_number" homeNum
  let street ← address.pyGetD "street" (.str "")
  let street2 ← address.pyGetD "street_line_2" (.str "")
  let city ← address.pyGetD "city" (.str "")
  let state ← address.pyGetD "state" (.str "")
  let zipc ← address.pyGetD "zip" (.str "")
  let atype ← address.pyGetD "type" (.str "service")
  let notes ← job.pyGetD "notes" (.arr [])
  let extraSections ←
    if notes.truthy then do
      let ns ← pyIter notes
      let ws ← mapExcept (fun note => do
        let content ← note.pyGetD "content" (.str "")
        pure (dtWidget [("text", content), ("startIcon", icon "DESCRIPTION")])) ns
      pure [Json.obj [("header", .str "Notes"), ("widgets", .arr ws)]]
    else pure []
  pure (jobCard idVal invoice descr typeName workStatus fn ln company email
    mobNum street street2 city state zipc atype extraSections)

/-- The `title_map` dictionary of `process_appointment_event` (src/app.py
lines 260-266). -/
def titleMap : List (String × (String × String)) :=
  [("job.appointment.scheduled",
    ("New Appointment Scheduled", "🆕 New appointment scheduled")),
   ("job.appointment.rescheduled",
    ("Appointment Rescheduled", "📅 Appointment time changed")),
   ("job.appointment.appointment_discarded",
    ("Appointment Cancelled", "❌ Appointment has been cancelled")),
   ("job.appointment.appointment_pros_assigned",
    ("Technicians Assigned", "👨‍🔧 New technicians assigned to appointment")),
   ("job.appointment.appointment_pros_unassigned",
    ("Technicians Removed", "🔄 Technicians removed from appointment"))]

/-- `title_map.get(event_type, ("Appointment Update", "📝 Appointment
updated"))` (line 268). -/
def appointmentTitle (eventType : String) : String × String :=
  (titleMap.lookup eventType).getD ("Appointment Update", "📝 Appointment updated")

/-- Python `int` coercion used by `// 60` and `% 60` (booleans are ints;
anything non-numeric raises `TypeError`). -/
def pyToInt : Json → Except PyExc Int
  | .num n => .ok n
  | .bool b => .ok (if b then 1 else 0)
  | _ => .error .typeError

/-- `f"{n} hour{'s' if n != 1 else ''}"` and its minute twin. -/
def pluralize (n : Int) (unit : String) : String :=
  toString n ++ " " ++ unit ++ (if n ≠ 1 then "s" else "")

/-- The cancellation-notice section appended for discarded appointments
(src/app.py lines 350-360). -/
def cancellationSection : Json :=
  .obj [
    ("header", .str "Cancellation Notice"),
    ("widgets", .arr [dtWidget [
      ("text", .str "This appointment has been cancelled"),
      ("startIcon", icon "CANCEL"),
      ("bottomLabel", .str "Please update your schedule accordingly")]])]

/-- The message dictionary literal of `process_appointment_event`
(src/app.py lines 271-300 and the section appends of lines 313-360),
abstracted over the values read from the payload.  The job-ID section of
lines 340-347 carries no header key. -/
def appointmentCard (title subtitle : String) (idVal startT endT : Json)
    (arrivalWidgets techSections : List Json) (jobId : Json)
    (cancelSections : List Json) : Json :=
  .obj [("cardsV2", .arr [.obj [
    ("cardId", .str ("appointment-" ++ pyStr idVal)),
    ("card", .obj [
      ("header", .obj [
        ("title", .str title),
        ("subtitle", .str subtitle)]),
      ("sections", .arr ([
        Json.obj [
          ("header", .str "Appointment Details"),
          ("widgets", .arr ([
            dtWidget [("text", .str ("Start: " ++ pyStr (format_time startT))),
                      ("startIcon", icon "CLOCK")],
            dtWidget [("text", .str ("End: " ++ pyStr (format_time endT))),
                      ("startIcon", icon "SCHEDULE")]] ++ arrivalWidgets))]] ++
        techSections ++
        [Json.obj [("widgets", .arr [
          dtWidget [("text", .str ("Job ID: " ++ pyStr jobId)),
                    ("startIcon", icon "BOOKMARK")]])]] ++
        cancelSections))])]])]

/-- The card built by `process_appointment_event` (src/app.py lines
256-360). -/
def appointmentMessage (eventType : String) (payload : Json) :
    Except PyExc Json := do
  let appointment ← payload.pyGetD "appointment" (.obj [])
  let title := (appointmentTitle eventType).1
  let subtitle := (appointmentTitle eventType).2
  let isCancelled := eventType == "job.appointment.appointment_discarded"
  let idVal ← appointment.pyGetD "id" (.str "unknown")
  let startT ← appointment.pyGet "start_time"
  let endT ← appointment.pyGet "end_time"
  let arrival ← appointment.pyGet "arrival_window_minutes"
  let arrivalWidgets ←
    if arrival.truthy then do
      let av ← pyToInt arrival
      let hours := av.fdiv 60
      let minutes := av.fmod 60
      let windowText :=
        (if hours ≠ 0 then [pluralize hours "hour"] else []) ++
        (if minutes ≠ 0 then [pluralize minutes "minute"] else [])
      pure [dtWidget [
        ("text", .str ("Arrival Window: " ++ String.intercalate " and " windowText)),
        ("startIcon", icon "TIMER")]]
    else pure []
  let dispatched ← appointment.pyGetD "dispatched_employees" (.arr [])
  let techSections ←
    if dispatched.truthy ∧ ¬isCancelled then do
      let emps ← pyIter dispatched
      let ws ← mapExcept employeeWidget emps
      pure [Json.obj [("header", .str "Assigned Technicians"), ("widgets", .arr ws)]]
    else pure []
  let jobId ← appointment.pyGetD "job_id" (.str "Unknown")
  let cancelSections :=
    if isCancelled then [cancellationSection] else []
  pure (appointmentCard title subtitle idVal startT endT arrivalWidgets
    techSections jobId cancelSections)

/-- Formatting followed by `send_chat_message` and the handler's
`try`/`except`: a formatter exception yields a 500 with no POST; a non-200
chat answer yields a 500 after the POST; otherwise `OK, 200`. -/
def runProcess (fmt : Except PyExc Json) (url : String) (chatStatus : Nat) :
    List (String × Json) × (String × Nat) :=
  match fmt with
  | .error _ => ([], ("Error processing request", 500))
  | .ok msg =>
    match postAndCheck url msg chatStatus with
    | (posts, .ok ()) => (posts, ("OK", 200))
    | (posts, .error _) => (posts, ("Error processing request", 500))

/-- `process_estimate_scheduled` as run under the handler's `try`. -/
def process_estimate_scheduled (payload : Json) (estimateUrl : String)
    (chatStatus : Nat) : List (String × Json) × (String × Nat) :=
  runProcess (estimateMessage payload) estimateUrl chatStatus

/-- `process_job_created` as run under the handler's `try`. -/
def process_job_created (payload : Json) (jobUrl : String)
    (chatStatus : Nat) : List (String × Json) × (String × Nat) :=
  runProcess (jobMessage payload) jobUrl chatStatus

/-- `process_appointment_event` as run under the handler's `try`. -/
def process_appointment_event (eventType : String) (payload : Json)
    (jobUrl : String) (chatStatus : Nat) :
    List (String × Json) × (String × Nat) :=
  runProcess (appointmentMessage eventType payload) jobUrl chatStatus

/-- `handle_webhook` of src/app.py (lines 38-62).  The request headers are
passed in but the source consults them only in its logging statement
(line 41), never for processing; there is no signature verification.
Every exception inside the `try` is caught and answered with a 500. -/
def app_handle_webhook (_headers : List (String × String)) (rawBody : String)
    (jobUrl estimateUrl : String) (chatStatus : Nat) :
    List (String × Json) × (String × Nat) :=
  match jsonLoads rawBody with
  | .error _ => ([], ("Error processing request", 500))
  | .ok payload =>
    match payload.pyGetD "event" (.str "") with
    | .error _ => ([], ("Error processing request", 500))
    | .ok ev =>
      if jsonEqStr ev "estimate.scheduled" then
        process_estimate_scheduled payload estimateUrl chatStatus
      else if jsonEqStr ev "job.created" then
        process_job_created payload jobUrl chatStatus
      else
        match ev with
        | .str s =>
          if startsWithPy s "job.appointment." then
            process_appointment_event s payload jobUrl chatStatus
          else ([], ("OK", 200))
        | _ =>
          -- `event.startswith(..)` on a non-string raises `AttributeError`,
          -- which the handler's `except` answers with a 500
          ([], ("Error processing request", 500))

/-! ## Observation helpers for stating properties of produced cards

These are not part of the source; they only read components out of a card
message so that theorems can talk about them. -/

/-- Field of an object, `none` elsewhere. -/
def jGet (m : Json) (k : String) : Option Json :=
  match m with
  | .obj fields => Json.lookup fields k
  | _ => none

/-- First element of an array. -/
def firstElem : Json → Option Json
  | .arr (x :: _) => some x
  | _ => none

/-- The `card` object of a `cardsV2` message. -/
def cardOf (m : Json) : Option Json :=
  ((jGet m "cardsV2").bind firstElem).bind (jGet · "card")

/-- The card header's title. -/
def headerTitleOf (m : Json) : Option Json :=
  ((cardOf m).bind (jGet · "header")).bind (jGet · "title")

/-- The card header's subtitle. -/
def headerSubtitleOf (m : Json) : Option Json :=
  ((cardOf m).bind (jGet · "header")).bind (jGet · "subtitle")

/-- The card's section list. -/
def sectionsOf (m : Json) : List Json :=
  match (cardOf m).bind (jGet · "sections") with
  | some (.arr xs) => xs
  | _ => []

/-- Whether a section carries the given header string. -/
def sectionHasHeader (s : Json) (name : String) : Bool :=
  match jGet s "header" with
  | some (.str t) => t == name
  | _ => false

/-- Whether any section of the card carries the given header string. -/
def hasSection (m : Json) (name : String) : Bool :=
  (sectionsOf m).any (fun s => sectionHasHeader s name)

/-! ## General lemmas -/

/-- `String.append` is left-cancellative. -/
theorem append_left_cancel (a : String) {b c : String} (h : a ++ b = a ++ c) :
    b = c := by
  have hd := congrArg String.data h
  simp only [String.data_append] at hd
  exact String.ext (List.append_cancel_left hd)

/-- `hexDigit` produces ASCII characters on digit values. -/
theorem hexDigit_ascii {n : Nat} (h : n < 16) : (hexDigit n).toNat < 128 := by
  interval_cases n <;> decide

/-- Hex digests are ASCII-only. -/
theorem bytesToHex_ascii (bs : List Nat) :
    (bytesToHex bs).data.all (fun c => c.toNat < 128) = true := by
  rw [List.all_eq_true]
  intro c hc
  simp only [bytesToHex, String.mk] at hc
  rw [List.mem_flatMap] at hc
  obtain ⟨b, -, hmem⟩ := hc
  simp only [List.mem_cons, List.not_mem_nil, or_false] at hmem
  rcases hmem with h | h
  · simpa [h] using hexDigit_ascii (Nat.mod_lt _ (by norm_num))
  · simpa [h] using hexDigit_ascii (Nat.mod_lt _ (by norm_num))

/-- The computed HMAC hex digest is ASCII-only. -/
theorem hmacHex_ascii (k t : String) :
    (hmacSha256Hex k t).data.all (fun c => c.toNat < 128) = true :=
  bytesToHex_ascii _

/-- `compare_digest` of an ASCII string with itself is `True`. -/
theorem compareDigest_self {s : String}
    (h : s.data.all (fun c => c.toNat < 128) = true) :
    compareDigest s (some s) = .ok true := by
  simp [compareDigest, h]

/-- What a successful `compare_digest` tells us: the strings are equal and
both were ASCII. -/
theorem compareDigest_ok_true {a b : String}
    (h : compareDigest a (some b) = .ok true) :
    a = b ∧ a.data.all (fun c => c.toNat < 128) = true ∧
      b.data.all (fun c => c.toNat < 128) = true := by
  simp only [compareDigest] at h
  split at h
  · rename_i hcond
    refine ⟨?_, hcond.1, hcond.2⟩
    simpa using h
  · cases h

/-- A request whose provided signature is the digest of the canonical
string the code actually hashes passes verification. -/
theorem verify_ok_of_dumps {secret : String} {ts : Option String}
    {rawBody : String} {p : Json} (h : getJson rawBody = .ok p) :
    verify secret ts rawBody
      (some (hmacSha256Hex secret (signatureBody ts p))) = .ok true := by
  unfold verify
  rw [h]
  exact compareDigest_self (hmacHex_ascii secret (signatureBody ts p))

/-- Replace the character at one position of a string. -/
def flipChar (s : String) (i : Nat) (c : Char) : String :=
  String.mk (s.data.set i c)

/-- Replacing a character with a different one changes the string. -/
theorem flipChar_ne {s : String} {i : Nat} {c : Char} (h : i < s.data.length)
    (hne : c ≠ s.data.get ⟨i, h⟩) : flipChar s i c ≠ s := by
  intro he
  apply hne
  have hd : s.data.set i c = s.data := congrArg String.data he
  have h1 : (s.data.set i c)[i]? = some c := List.getElem?_set_eq_of_lt c h
  rw [hd, List.getElem?_eq_getElem h] at h1
  exact (Option.some.inj h1).symm

/-- Replacing a character of an ASCII string with an ASCII character keeps
it ASCII. -/
theorem flipChar_ascii {s : String} {c : Char}
    (hs : s.data.all (fun c => c.toNat < 128) = true) (hc : c.toNat < 128)
    (i : Nat) :
    (flipChar s i c).data.all (fun c => c.toNat < 128) = true := by
  rw [List.all_eq_true] at hs ⊢
  intro a ha
  rcases List.mem_or_eq_of_mem_set ha with h | h
  · exact hs a h
  · subst h; simpa using hc

/-- Equality of handler outcomes is decidable (used to evaluate concrete
counterexamples). -/
instance {α : Type} [DecidableEq α] : DecidableEq (Except PyExc α) := fun a b =>
  match a, b with
  | .ok x, .ok y => decidable_of_iff (x = y) (by simp)
  | .error x, .error y => decidable_of_iff (x = y) (by simp)
  | .ok _, .error _ => isFalse (by simp)
  | .error _, .ok _ => isFalse (by simp)

/-! ## Claims -/

/-- C1: the claim states the hashed canonical string is
`"{timestamp}.{rawBody}"` with the verbatim request body.  False: line 42
of src/Housecall.py hashes `f"{timestamp}.{json.dumps(payload)}"`, and for
the valid body `{"event":"x"}` (no space) the re-serialization
`{"event": "x"}` differs, so the hashed string is not the timestamp, a
dot, and the verbatim body. -/
theorem C1_counterexample :
    jsonLoads "\x7b\"event\":\"x\"\x7d" = .ok (.obj [("event", .str "x")]) ∧
    signatureBody (some "ts") (.obj [("event", .str "x")]) ≠
      "ts" ++ "." ++ "\x7b\"event\":\"x\"\x7d" :=
  ⟨rfl, by decide⟩

/-- C1 (amended): the verifier hashes
`"{timestamp}." ++ json.dumps(parsed payload)`; this equals
`"{timestamp}." ++ rawBody` exactly when the raw body coincides with its
`json.dumps` re-serialization. -/
theorem C1_hashed_string_iff_canonical (t rawBody : String) (p : Json)
    (h : jsonLoads rawBody = .ok p) :
    signatureBody (some t) p = t ++ "." ++ rawBody ↔ jsonDumps p = rawBody := by
  have := h
  constructor
  · exact fun he => append_left_cancel (t ++ ".") he
  · intro he
    show t ++ "." ++ jsonDumps p = t ++ "." ++ rawBody
    rw [he]

/-- C1 witness: the amended equivalence at a concrete request. -/
theorem C1_witness :
    jsonLoads "\x7b\"event\": \"x\"\x7d" = .ok (.obj [("event", .str "x")]) ∧
    (signatureBody (some "ts") (.obj [("event", .str "x")]) =
        "ts" ++ "." ++ "\x7b\"event\": \"x\"\x7d" ↔
      jsonDumps (.obj [("event", .str "x")]) = "\x7b\"event\": \"x\"\x7d") :=
  ⟨rfl, C1_hashed_string_iff_canonical "ts" "\x7b\"event\": \"x\"\x7d"
    (.obj [("event", .str "x")]) rfl⟩

/-- C3: in src/app.py the webhook handler performs no signature
verification: two requests with the same body whose headers differ only in
`Api-Signature` and `Api-Timestamp` produce the same HTTP response and the
same outbound chat POSTs.  (The source reads `request.headers` solely in
its logging statement.) -/
theorem C3_headers_ignored (h1 h2 : List (String × String))
    (rawBody ju eu : String) (st : Nat)
    (hagree : ∀ k, k ≠ "Api-Signature" → k ≠ "Api-Timestamp" →
      h1.lookup k = h2.lookup k) :
    app_handle_webhook h1 rawBody ju eu st =
      app_handle_webhook h2 rawBody ju eu st := by
  have := hagree
  rfl

/-- C3 witness: concrete header lists differing only in the two
signature headers. -/
theorem C3_witness :
    app_handle_webhook [("Api-Signature", "deadbeef"), ("Api-Timestamp", "1")]
        "\x7b\"event\": \"x\"\x7d" "ju" "eu" 200 =
      app_handle_webhook [] "\x7b\"event\": \"x\"\x7d" "ju" "eu" 200 :=
  C3_headers_ignored _ _ _ _ _ 200 (by
    intro k hk1 hk2
    simp only [List.lookup]
    rw [beq_eq_false_iff_ne.mpr hk1, beq_eq_false_iff_ne.mpr hk2])

set_option maxRecDepth 40000 in
/-- C4: the claim states that a signature computed over
`timestamp + "." + body` (the raw body) always passes verification.
False: for the valid body `{"a":1}` the code hashes the re-serialized
`{"a": 1}` instead, and the correctly-signed request is rejected. -/
theorem C4_counterexample :
    verify "k" (some "t") "\x7b\"a\":1\x7d"
      (some (hmacSha256Hex "k" ("t" ++ "." ++ "\x7b\"a\":1\x7d"))) = .ok false := by
  decide

/-- C4 (amended): a request signed over
`timestamp + "." + json.dumps(parsed body)` passes verification for every
secret, timestamp and parseable body; the claim as stated holds exactly
for bodies already in `json.dumps` canonical form. -/
theorem C4_signed_with_dumps_passes (secret t rawBody : String) (p : Json)
    (h : getJson rawBody = .ok p) :
    verify secret (some t) rawBody
      (some (hmacSha256Hex secret (t ++ "." ++ jsonDumps p))) = .ok true := by
  have he : t ++ "." ++ jsonDumps p = signatureBody (some t) p := rfl
  rw [he]
  exact verify_ok_of_dumps h

/-- C4 witness: the amended property at a concrete request. -/
theorem C4_witness :
    verify "k" (some "t") "\x7b\"a\": 1\x7d"
      (some (hmacSha256Hex "k" ("t" ++ "." ++ jsonDumps (.obj [("a", .num 1)])))) =
      .ok true :=
  C4_signed_with_dumps_passes "k" "t" "\x7b\"a\": 1\x7d" (.obj [("a", .num 1)]) rfl

/-- C2: the claim states that absence of secret, timestamp, or provided
signature makes verification return false without raising, surfacing as a
401.  False for two of the three inputs: with the signature header absent,
`hmac.compare_digest(calculated, None)` raises `TypeError` and the request
is answered 500, not 401; an absent secret is answered 500
(`Configuration error`) before verification. -/
theorem C2_counterexample :
    (hc_handle_webhook (some "sec") (some "url") (some "ts") none
        "\x7b\"event\": \"x\"\x7d" 200).2 = .error .typeError ∧
    flaskResponse (hc_handle_webhook (some "sec") (some "url") (some "ts") none
        "\x7b\"event\": \"x\"\x7d" 200) = ([], ("Internal Server Error", 500)) ∧
    (hc_handle_webhook none (some "url") (some "ts") (some "sig")
        "\x7b\"event\": \"x\"\x7d" 200).2 ≠ .ok ("Invalid signature", 401) :=
  ⟨rfl, rfl, by decide⟩

/-- C2 (amended): an absent secret short-circuits into a 500
`Configuration error`; an absent timestamp is rendered as the literal
string `None`, so verification returns false (no exception) and the
handler answers 401 whenever the provided ASCII signature differs from
the `None.`-keyed digest; an absent provided signature makes
`compare_digest` raise `TypeError` (surfacing as 500, not 401). -/
theorem C2_missing_material :
    (∀ (chatUrl timestamp sig : Option String) (rawBody : String) (st : Nat),
      hc_handle_webhook none chatUrl timestamp sig rawBody st =
        ([], .ok ("Configuration error", 500)) ∧
      hc_handle_webhook (some "") chatUrl timestamp sig rawBody st =
        ([], .ok ("Configuration error", 500))) ∧
    (∀ (secret rawBody sig : String) (p : Json),
      getJson rawBody = .ok p →
      sig.data.all (fun c => c.toNat < 128) = true →
      sig ≠ hmacSha256Hex secret (signatureBody none p) →
      verify secret none rawBody (some sig) = .ok false) ∧
    (∀ (secret rawBody : String) (ts : Option String) (p : Json),
      getJson rawBody = .ok p →
      verify secret ts rawBody none = .error .typeError) ∧
    (∀ (secret chatUrl rawBody sig : String) (kvs : List (String × Json))
        (st : Nat),
      secret ≠ "" → chatUrl ≠ "" →
      jsonLoads rawBody = .ok (.obj kvs) →
      sig.data.all (fun c => c.toNat < 128) = true →
      sig ≠ hmacSha256Hex secret (signatureBody none (.obj kvs)) →
      hc_handle_webhook (some secret) (some chatUrl) none (some sig) rawBody st =
        ([], .ok ("Invalid signature", 401))) := by
  refine ⟨fun chatUrl timestamp sig rawBody st => ⟨rfl, rfl⟩, ?_, ?_, ?_⟩
  · intro secret rawBody sig p h hascii hne
    unfold verify
    rw [h]
    simp only [compareDigest]
    rw [if_pos ⟨hmacHex_ascii secret (signatureBody none p), hascii⟩,
      beq_eq_false_iff_ne.mpr (Ne.symm hne)]
  · intro secret rawBody ts p h
    unfold verify
    rw [h]
    rfl
  · intro secret chatUrl rawBody sig kvs st hsec hurl hparse hascii hne
    unfold hc_handle_webhook
    rw [if_neg (by simp [envTruthy, hsec, hurl])]
    have hg : getJson rawBody = .ok (.obj kvs) := by unfold getJson; rw [hparse]
    rw [hg]
    simp only [Json.pyGet, Json.pyGetD, Option.getD]
    have hcd : compareDigest
        (hmacSha256Hex secret (signatureBody none (.obj kvs)))
        (some sig) = .ok false := by
      simp only [compareDigest]
      rw [if_pos ⟨hmacHex_ascii secret (signatureBody none (.obj kvs)), hascii⟩,
        beq_eq_false_iff_ne.mpr (Ne.symm hne)]
    rw [hcd]

set_option maxRecDepth 40000 in
/-- C2 witness: each amended case at a concrete input. -/
theorem C2_witness :
    hc_handle_webhook none (some "url") (some "ts") (some "s") "\x7b\x7d" 200 =
      ([], .ok ("Configuration error", 500)) ∧
    verify "k" none "\x7b\x7d" (some "00") = .ok false ∧
    verify "k" (some "ts") "\x7b\x7d" none = .error .typeError ∧
    hc_handle_webhook (some "k") (some "u") none (some "00")
        "\x7b\"event\": \"x\"\x7d" 200 = ([], .ok ("Invalid signature", 401)) := by
  refine ⟨(C2_missing_material.1 (some "url") (some "ts") (some "s") "\x7b\x7d" 200).1,
    ?_, C2_missing_material.2.2.1 "k" "\x7b\x7d" (some "ts") (.obj []) rfl, ?_⟩
  · exact C2_missing_material.2.1 "k" "\x7b\x7d" "00" (.obj []) rfl (by decide)
      (by decide)
  · exact C2_missing_material.2.2.2 "k" "u" "\x7b\"event\": \"x\"\x7d" "00"
      [("event", Json.str "x")] 200 (by decide) (by decide) rfl (by decide)
      (by decide)

set_option maxRecDepth 40000 in
/-- C5: the claim states that changing any single character of a passing
signature to a different character makes verification return false.
False for non-ASCII replacements: `compare_digest` then raises
`TypeError` instead of returning false. -/
theorem C5_counterexample :
    verify "k" (some "t") "\x7b\x7d"
      (some (hmacSha256Hex "k" ("t" ++ "." ++ "\x7b\x7d"))) = .ok true ∧
    (hmacSha256Hex "k" ("t" ++ "." ++ "\x7b\x7d")).data[0]? ≠ some 'é' ∧
    verify "k" (some "t") "\x7b\x7d"
      (some (flipChar (hmacSha256Hex "k" ("t" ++ "." ++ "\x7b\x7d")) 0 'é')) =
      .error .typeError := by
  refine ⟨by decide, by decide, by decide⟩

/-- C5 (amended): changing any single character of a passing signature to
a different ASCII character makes verification return false; a non-ASCII
replacement instead raises `TypeError`. -/
theorem C5_single_char_flip (secret t rawBody sig : String) (i : Nat) (c : Char)
    (hpass : verify secret (some t) rawBody (some sig) = .ok true)
    (hi : i < sig.data.length) (hne : c ≠ sig.data.get ⟨i, hi⟩)
    (hascii : c.toNat < 128) :
    verify secret (some t) rawBody (some (flipChar sig i c)) = .ok false := by
  cases hgj : getJson rawBody with
  | error e =>
    rw [verify, hgj] at hpass
    cases hpass
  | ok p =>
    have hp2 : compareDigest (hmacSha256Hex secret (signatureBody (some t) p))
        (some sig) = .ok true := by
      have h := hpass
      rw [verify, hgj] at h
      exact h
    obtain ⟨heq, hca, hcb⟩ := compareDigest_ok_true hp2
    have hgoal : verify secret (some t) rawBody (some (flipChar sig i c)) =
        compareDigest (hmacSha256Hex secret (signatureBody (some t) p))
          (some (flipChar sig i c)) := by
      rw [verify, hgj]
    rw [hgoal]
    simp only [compareDigest]
    rw [if_pos ⟨hca, flipChar_ascii hcb hascii i⟩]
    have hne2 : hmacSha256Hex secret (signatureBody (some t) p) ≠
        flipChar sig i c := by
      rw [heq]
      exact (flipChar_ne hi hne).symm
    rw [beq_eq_false_iff_ne.mpr hne2]

set_option maxRecDepth 40000 in
/-- C5 witness: the amended flip property at a concrete passing request. -/
theorem C5_witness :
    verify "k" (some "t") "\x7b\x7d"
      (some (flipChar (hmacSha256Hex "k" (signatureBody (some "t") (.obj [])))
        0 'z')) = .ok false :=
  C5_single_char_flip "k" "t" "\x7b\x7d"
    (hmacSha256Hex "k" (signatureBody (some "t") (.obj []))) 0 'z'
    (verify_ok_of_dumps rfl) (by decide) (by decide) (by decide)

/-- C6: the claim states that a body that is not valid JSON is answered
with a 400.  False for the later version: src/app.py catches the
`json.loads` failure in its blanket `except` and answers 500. -/
theorem C6_counterexample :
    app_handle_webhook [] "not json" "ju" "eu" 200 =
      ([], ("Error processing request", 500)) ∧
    (app_handle_webhook [] "not json" "ju" "eu" 200).2.2 ≠ 400 :=
  ⟨rfl, by decide⟩

/-- C6 (amended): a malformed body never reaches dispatch and triggers no
outbound POST in either version; the early version (src/Housecall.py)
surfaces Flask's `BadRequest` as a 400, while the later version
(src/app.py) catches the parse failure and answers 500. -/
theorem C6_malformed_body (rawBody : String) (e : PyExc)
    (h : jsonLoads rawBody = .error e) :
    (∀ hdrs ju eu st, app_handle_webhook hdrs rawBody ju eu st =
      ([], ("Error processing request", 500))) ∧
    (∀ (secret chatUrl : String) (ts sig : Option String) (st : Nat),
      secret ≠ "" → chatUrl ≠ "" →
      flaskResponse (hc_handle_webhook (some secret) (some chatUrl) ts sig
        rawBody st) = ([], ("Bad Request", 400))) := by
  constructor
  · intro hdrs ju eu st
    unfold app_handle_webhook
    rw [h]
  · intro secret chatUrl ts sig st hsec hurl
    unfold hc_handle_webhook
    rw [if_neg (by simp [envTruthy, hsec, hurl])]
    have hg : getJson rawBody = .error .badRequest := by unfold getJson; rw [h]
    rw [hg]
    rfl

/-- C6 witness: the amended behavior at a concrete malformed body. -/
theorem C6_witness :
    app_handle_webhook [] "\x7b broken" "ju" "eu" 200 =
      ([], ("Error processing request", 500)) ∧
    flaskResponse (hc_handle_webhook (some "k") (some "u") (some "1")
      (some "sig") "\x7b broken" 200) = ([], ("Bad Request", 400)) :=
  ⟨(C6_malformed_body "\x7b broken" .valueError rfl).1 [] "ju" "eu" 200,
   (C6_malformed_body "\x7b broken" .valueError rfl).2 "k" "u" (some "1")
     (some "sig") 200 (by decide) (by decide)⟩

/-- C7: an envelope whose event string is recognized by neither version's
switch is a no-op: the handler answers 200 and performs no outbound POST
(in the early version, after signature verification passes). -/
theorem C7_unknown_event :
    (∀ (hdrs : List (String × String)) (rawBody : String)
        (kvs : List (String × Json)) (ev ju eu : String) (st : Nat),
      jsonLoads rawBody = .ok (.obj kvs) →
      Json.lookup kvs "event" = some (.str ev) →
      ev ≠ "estimate.scheduled" → ev ≠ "job.created" →
      startsWithPy ev "job.appointment." = false →
      app_handle_webhook hdrs rawBody ju eu st = ([], ("OK", 200))) ∧
    (∀ (secret chatUrl rawBody : String) (ts : Option String)
        (kvs : List (String × Json)) (ev : String) (st : Nat),
      secret ≠ "" → chatUrl ≠ "" →
      jsonLoads rawBody = .ok (.obj kvs) →
      Json.lookup kvs "event" = some (.str ev) →
      ev ≠ "job.created" →
      hc_handle_webhook (some secret) (some chatUrl) ts
        (some (hmacSha256Hex secret (signatureBody ts (.obj kvs)))) rawBody st =
        ([], .ok ("OK", 200))) := by
  constructor
  · intro hdrs rawBody kvs ev ju eu st hparse hlookup hne1 hne2 hsw
    unfold app_handle_webhook
    rw [hparse]
    simp only [Json.pyGetD]
    rw [hlookup]
    simp only [Option.getD, jsonEqStr]
    rw [beq_eq_false_iff_ne.mpr hne1, beq_eq_false_iff_ne.mpr hne2, hsw]
    simp
  · intro secret chatUrl rawBody ts kvs ev st hsec hurl hparse hlookup hne
    unfold hc_handle_webhook
    rw [if_neg (by simp [envTruthy, hsec, hurl])]
    have hg : getJson rawBody = .ok (.obj kvs) := by unfold getJson; rw [hparse]
    rw [hg]
    simp only [Json.pyGet, Json.pyGetD, Option.getD]
    rw [compareDigest_self (hmacHex_ascii secret (signatureBody ts (.obj kvs)))]
    simp only [Json.pyIndex]
    rw [hlookup]
    simp only [jsonEqStr]
    rw [if_neg (by simp [hne])]

/-- C7 witness: `{event: "unknown.thing"}` yields a 200 and no POST in
both versions. -/
theorem C7_witness :
    app_handle_webhook [] "\x7b\"event\": \"unknown.thing\"\x7d" "ju" "eu" 200 =
      ([], ("OK", 200)) ∧
    hc_handle_webhook (some "k") (some "u") (some "1")
      (some (hmacSha256Hex "k"
        (signatureBody (some "1") (.obj [("event", .str "unknown.thing")]))))
      "\x7b\"event\": \"unknown.thing\"\x7d" 200 = ([], .ok ("OK", 200)) :=
  ⟨C7_unknown_event.1 [] "\x7b\"event\": \"unknown.thing\"\x7d"
     [("event", .str "unknown.thing")] "unknown.thing" "ju" "eu" 200 rfl rfl
     (by decide) (by decide) (by decide),
   C7_unknown_event.2 "k" "u" "\x7b\"event\": \"unknown.thing\"\x7d" (some "1")
     [("event", .str "unknown.thing")] "unknown.thing" 200 (by decide)
     (by decide) rfl rfl (by decide)⟩

/-- Structure of every successfully built appointment card: header title
and subtitle come from the `title_map` lookup on the exact event string;
a cancellation-notice section is present exactly for the discarded event;
and a cancelled card never carries a technician section. -/
theorem apptMsg_props (ev : String) (payload m : Json)
    (h : appointmentMessage ev payload = .ok m) :
    headerTitleOf m = some (.str (appointmentTitle ev).1) ∧
    headerSubtitleOf m = some (.str (appointmentTitle ev).2) ∧
    hasSection m "Cancellation Notice" =
      (ev == "job.appointment.appointment_discarded") ∧
    ((ev == "job.appointment.appointment_discarded") = true →
      hasSection m "Assigned Technicians" = false) := by
  simp only [appointmentMessage] at h
  cases h1 : payload.pyGetD "appointment" (.obj []) with
  | error e => rw [h1] at h; simp [Bind.bind, Except.bind] at h
  | ok appointment =>
    rw [h1] at h
    cases appointment with
    | null => simp [Bind.bind, Except.bind, Json.pyGetD] at h
    | bool b => simp [Bind.bind, Except.bind, Json.pyGetD] at h
    | num n => simp [Bind.bind, Except.bind, Json.pyGetD] at h
    | str s => simp [Bind.bind, Except.bind, Json.pyGetD] at h
    | arr xs => simp [Bind.bind, Except.bind, Json.pyGetD] at h
    | obj afields =>
      simp only [Bind.bind, Except.bind, Pure.pure, Except.pure, Json.pyGetD,
        Json.pyGet] at h
      split at h
      · -- arrival window present
        cases hav : pyToInt
            ((Json.lookup afields "arrival_window_minutes").getD .null) with
        | error e => rw [hav] at h; simp [Bind.bind, Except.bind] at h
        | ok av =>
          rw [hav] at h
          simp only [Bind.bind, Except.bind, Pure.pure, Except.pure] at h
          split at h
          · -- technicians section present (not cancelled)
            rename_i hcond
            cases hit : pyIter
                ((Json.lookup afields "dispatched_employees").getD (.arr [])) with
            | error e => rw [hit] at h; simp [Bind.bind, Except.bind] at h
            | ok emps =>
              rw [hit] at h
              simp only [Bind.bind, Except.bind, Pure.pure, Except.pure] at h
              cases hws : mapExcept employeeWidget emps with
              | error e => rw [hws] at h; simp [Bind.bind, Except.bind] at h
              | ok ws =>
                rw [hws] at h
                simp only [Bind.bind, Except.bind, Pure.pure, Except.pure,
                  Except.ok.injEq] at h
                subst h
                have hnc : (ev == "job.appointment.appointment_discarded") = false :=
                  Bool.not_eq_true _ ▸ (by simpa using hcond.2)
                refine ⟨rfl, rfl, ?_, ?_⟩
                · simp [hasSection, sectionsOf, cardOf, jGet, firstElem, appointmentCard,
                    cancellationSection, sectionHasHeader, Json.lookup, hnc]
                · intro hcan
                  rw [hcan] at hnc
                  cases hnc
          · -- no technicians section
            simp only [Except.ok.injEq] at h
            subst h
            refine ⟨rfl, rfl, ?_, ?_⟩
            · cases hcan : (ev == "job.appointment.appointment_discarded") <;>
                simp [hasSection, sectionsOf, cardOf, jGet, firstElem,
                  appointmentCard, cancellationSection, sectionHasHeader,
                  Json.lookup, hcan]
            · intro hcan
              simp [hasSection, sectionsOf, cardOf, jGet, firstElem,
                appointmentCard, cancellationSection, sectionHasHeader,
                Json.lookup, hcan]
      · -- no arrival window
        split at h
        · -- technicians section present (not cancelled)
          rename_i hcond
          cases hit : pyIter
              ((Json.lookup afields "dispatched_employees").getD (.arr [])) with
          | error e => rw [hit] at h; simp [Bind.bind, Except.bind] at h
          | ok emps =>
            rw [hit] at h
            simp only [Bind.bind, Except.bind, Pure.pure, Except.pure] at h
            cases hws : mapExcept employeeWidget emps with
            | error e => rw [hws] at h; simp [Bind.bind, Except.bind] at h
            | ok ws =>
              rw [hws] at h
              simp only [Bind.bind, Except.bind, Pure.pure, Except.pure,
                Except.ok.injEq] at h
              subst h
              have hnc : (ev == "job.appointment.appointment_discarded") = false :=
                Bool.not_eq_true _ ▸ (by simpa using hcond.2)
              refine ⟨rfl, rfl, ?_, ?_⟩
              · simp [hasSection, sectionsOf, cardOf, jGet, firstElem,
                  appointmentCard, cancellationSection, sectionHasHeader,
                  Json.lookup, hnc]
              · intro hcan
                rw [hcan] at hnc
                cases hnc
        · -- no technicians section
          simp only [Except.ok.injEq] at h
          subst h
          refine ⟨rfl, rfl, ?_, ?_⟩
          · cases hcan : (ev == "job.appointment.appointment_discarded") <;>
              simp [hasSection, sectionsOf, cardOf, jGet, firstElem,
                appointmentCard, cancellationSection, sectionHasHeader,
                Json.lookup, hcan]
          · intro hcan
            simp [hasSection, sectionsOf, cardOf, jGet, firstElem,
              appointmentCard, cancellationSection, sectionHasHeader,
              Json.lookup, hcan]

/-- `(Except.ok a) >>= f` computes `f a` (stepping lemma for the
formatter chains). -/
theorem isOk_bind {α β : Type} {x : Except PyExc α} {f : α → Except PyExc β}
    {a : α} (h1 : x = .ok a) (h2 : (f a).isOk = true) :
    (x >>= f).isOk = true := by
  subst h1
  exact h2

/-- A computation with `isOk` produces a value. -/
theorem exists_ok_of_isOk {α : Type} {x : Except PyExc α}
    (h : x.isOk = true) : ∃ m, x = .ok m := by
  cases x with
  | ok a => exact ⟨a, rfl⟩
  | error e => exact absurd h (by simp [Except.isOk, Except.toBool])

/-- Text of the first widget of the first card section (observer used to
exhibit placeholder substitution). -/
def firstSectionFirstWidgetText (m : Json) : Option Json :=
  match sectionsOf m with
  | s :: _ =>
    match jGet s "widgets" with
    | some (.arr (w :: _)) => (jGet w "decoratedText").bind (jGet · "text")
    | _ => none
  | [] => none

/-- C8: the claim states that every formatter is total on envelopes with
missing nested objects.  False for the early version: the
`send_chat_notification` of src/Housecall.py indexes the customer object
directly and raises `KeyError` when it is absent. -/
theorem C8_counterexample :
    hcJobMessage (.obj []) = .error (.keyError "customer") ∧
    (send_chat_notification (.obj []) "u" 200).2 = .error (.keyError "customer") :=
  ⟨rfl, rfl⟩

/-- C8 (amended): the later version formatters (src/app.py) are total on
payloads whose nested objects are omitted, substituting fixed placeholders
(e.g. `No description`); purity is inherent in the functional model.  The
early version `send_chat_notification` instead raises `KeyError` on
missing nested objects. -/
theorem C8_formatters_totality :
    (∀ (pfields jfields : List (String × Json)),
      Json.lookup pfields "job" = some (.obj jfields) →
      Json.lookup jfields "customer" = none →
      Json.lookup jfields "address" = none →
      Json.lookup jfields "job_fields" = none →
      Json.lookup jfields "notes" = none →
      ∃ m, jobMessage (.obj pfields) = .ok m) ∧
    (∀ pfields : List (String × Json),
      Json.lookup pfields "estimate" = none →
      ∃ m, estimateMessage (.obj pfields) = .ok m) ∧
    (∀ (ev : String) (pfields : List (String × Json)),
      Json.lookup pfields "appointment" = none →
      ∃ m, appointmentMessage ev (.obj pfields) = .ok m) ∧
    hcJobMessage (.obj [("customer", .obj [])]) = .error (.keyError "address") := by
  refine ⟨?_, ?_, ?_, rfl⟩
  · intro pfields jfields hjob hcust haddr hjf hnotes
    apply exists_ok_of_isOk
    rw [jobMessage]
    apply isOk_bind (a := .obj jfields) (by simp [Json.pyGetD, hjob])
    apply isOk_bind (a := .obj []) (by simp [Json.pyGetD, hcust])
    apply isOk_bind (a := .obj []) (by simp [Json.pyGetD, haddr])
    apply isOk_bind (a := .obj []) (by simp [Json.pyGetD, hjf])
    apply isOk_bind rfl
    apply isOk_bind rfl
    apply isOk_bind rfl
    apply isOk_bind rfl
    apply isOk_bind rfl
    apply isOk_bind rfl
    apply isOk_bind rfl
    apply isOk_bind rfl
    apply isOk_bind rfl
    apply isOk_bind rfl
    apply isOk_bind rfl
    apply isOk_bind rfl
    apply isOk_bind rfl
    apply isOk_bind rfl
    apply isOk_bind rfl
    apply isOk_bind rfl
    apply isOk_bind rfl
    apply isOk_bind rfl
    apply isOk_bind (a := .arr [])
      (by simp [Json.pyGetD, hnotes])
    rfl
  · intro pfields hest
    apply exists_ok_of_isOk
    rw [estimateMessage]
    apply isOk_bind (a := .obj []) (by simp [Json.pyGetD, hest])
    rfl
  · intro ev pfields happ
    apply exists_ok_of_isOk
    rw [appointmentMessage]
    apply isOk_bind (a := .obj []) (by simp [Json.pyGetD, happ])
    rfl

/-- C8 witness: the amended totality at concrete sparse payloads, with the
`No description` placeholder visible in the produced card. -/
theorem C8_witness :
    (∃ m, jobMessage (.obj [("job", .obj [("id", .num 1)])]) = .ok m) ∧
    (∃ m, estimateMessage (.obj [("event", .str "estimate.scheduled")]) = .ok m) ∧
    (∃ m, appointmentMessage "job.appointment.scheduled"
      (.obj [("event", .str "job.appointment.scheduled")]) = .ok m) ∧
    firstSectionFirstWidgetText
        ((jobMessage (.obj [("job", .obj [("id", .num 1)])])).toOption.getD .null) =
      some (.str "No description") :=
  ⟨C8_formatters_totality.1 [("job", .obj [("id", .num 1)])] [("id", .num 1)]
     rfl rfl rfl rfl rfl,
   C8_formatters_totality.2.1 [("event", .str "estimate.scheduled")] rfl,
   C8_formatters_totality.2.2.1 "job.appointment.scheduled"
     [("event", .str "job.appointment.scheduled")] rfl,
   rfl⟩

/-- C9: every `job.appointment.*` event is dispatched to the appointment
formatter (an outbound POST is attempted, never treated as unrecognized);
the card title, subtitle and cancellation marker come from the
`title_map` lookup keyed by the exact event string, and any event outside
the fixed five falls back to the generic "Appointment Update" header. -/
theorem C9_appointment_routing :
    (∀ (ev : String) (payload m : Json),
      appointmentMessage ev payload = .ok m →
      headerTitleOf m = some (.str (appointmentTitle ev).1) ∧
      headerSubtitleOf m = some (.str (appointmentTitle ev).2) ∧
      hasSection m "Cancellation Notice" =
        (ev == "job.appointment.appointment_discarded")) ∧
    (∀ ev : String,
      ev ≠ "job.appointment.scheduled" →
      ev ≠ "job.appointment.rescheduled" →
      ev ≠ "job.appointment.appointment_discarded" →
      ev ≠ "job.appointment.appointment_pros_assigned" →
      ev ≠ "job.appointment.appointment_pros_unassigned" →
      appointmentTitle ev = ("Appointment Update", "📝 Appointment updated")) ∧
    (∀ (hdrs : List (String × String)) (rawBody : String)
        (kvs : List (String × Json)) (ev ju eu : String) (m : Json),
      jsonLoads rawBody = .ok (.obj kvs) →
      Json.lookup kvs "event" = some (.str ev) →
      ev ≠ "estimate.scheduled" → ev ≠ "job.created" →
      startsWithPy ev "job.appointment." = true →
      appointmentMessage ev (.obj kvs) = .ok m →
      app_handle_webhook hdrs rawBody ju eu 200 = ([(ju, m)], ("OK", 200))) := by
  refine ⟨?_, ?_, ?_⟩
  · intro ev payload m h
    obtain ⟨h1, h2, h3, -⟩ := apptMsg_props ev payload m h
    exact ⟨h1, h2, h3⟩
  · intro ev h1 h2 h3 h4 h5
    simp only [appointmentTitle, titleMap, List.lookup,
      beq_eq_false_iff_ne.mpr h1, beq_eq_false_iff_ne.mpr h2,
      beq_eq_false_iff_ne.mpr h3, beq_eq_false_iff_ne.mpr h4,
      beq_eq_false_iff_ne.mpr h5]
    rfl
  · intro hdrs rawBody kvs ev ju eu m hparse hlookup hne1 hne2 hsw hm
    unfold app_handle_webhook
    rw [hparse]
    simp only [Json.pyGetD]
    rw [hlookup]
    simp only [Option.getD, jsonEqStr]
    rw [beq_eq_false_iff_ne.mpr hne1, beq_eq_false_iff_ne.mpr hne2, hsw]
    simp only [Bool.false_eq_true, if_false, reduceIte]
    unfold process_appointment_event runProcess
    rw [hm]
    rfl

/-- C9 witness: an unrecognized `job.appointment.` suffix is routed, gets
the generic title, and still triggers the outbound POST. -/
theorem C9_witness :
    appointmentTitle "job.appointment.weird" =
      ("Appointment Update", "📝 Appointment updated") ∧
    headerTitleOf ((appointmentMessage "job.appointment.weird"
        (.obj [("event", .str "job.appointment.weird"),
          ("appointment", .obj [])])).toOption.getD .null) =
      some (.str (appointmentTitle "job.appointment.weird").1) ∧
    app_handle_webhook []
        "\x7b\"event\": \"job.appointment.weird\", \"appointment\": \x7b\x7d\x7d"
        "ju" "eu" 200 =
      ([("ju", (appointmentMessage "job.appointment.weird"
          (.obj [("event", .str "job.appointment.weird"),
            ("appointment", .obj [])])).toOption.getD .null)], ("OK", 200)) := by
  refine ⟨C9_appointment_routing.2.1 "job.appointment.weird" (by decide)
      (by decide) (by decide) (by decide) (by decide),
    (C9_appointment_routing.1 "job.appointment.weird"
      (.obj [("event", .str "job.appointment.weird"), ("appointment", .obj [])])
      ((appointmentMessage "job.appointment.weird"
        (.obj [("event", .str "job.appointment.weird"),
          ("appointment", .obj [])])).toOption.getD .null) rfl).1,
    C9_appointment_routing.2.2 [] _
      [("event", .str "job.appointment.weird"), ("appointment", .obj [])]
      "job.appointment.weird" "ju" "eu" _ rfl rfl (by decide) (by decide)
      (by decide) rfl⟩

/-- C10: dispatch of a `job.appointment.appointment_discarded` envelope
produces a card with a cancellation-notice section and without any
technician-assignment section, even when `dispatched_employees` is
non-empty. -/
theorem C10_discarded_card (payload m : Json)
    (h : appointmentMessage "job.appointment.appointment_discarded" payload =
      .ok m) :
    hasSection m "Cancellation Notice" = true ∧
    hasSection m "Assigned Technicians" = false := by
  obtain ⟨-, -, h3, h4⟩ := apptMsg_props _ _ _ h
  exact ⟨by rw [h3]; rfl, h4 (by decide)⟩

/-- C10 witness: a discarded appointment with a non-empty
`dispatched_employees` list. -/
theorem C10_witness :
    hasSection ((appointmentMessage "job.appointment.appointment_discarded"
        (.obj [("appointment", .obj [("id", .num 9), ("job_id", .num 7),
          ("dispatched_employees",
            .arr [.obj [("first_name", .str "A")]])])])).toOption.getD .null)
      "Cancellation Notice" = true ∧
    hasSection ((appointmentMessage "job.appointment.appointment_discarded"
        (.obj [("appointment", .obj [("id", .num 9), ("job_id", .num 7),
          ("dispatched_employees",
            .arr [.obj [("first_name", .str "A")]])])])).toOption.getD .null)
      "Assigned Technicians" = false :=
  C10_discarded_card
    (.obj [("appointment", .obj [("id", .num 9), ("job_id", .num 7),
      ("dispatched_employees", .arr [.obj [("first_name", .str "A")]])])])
    ((appointmentMessage "job.appointment.appointment_discarded"
        (.obj [("appointment", .obj [("id", .num 9), ("job_id", .num 7),
          ("dispatched_employees",
            .arr [.obj [("first_name", .str "A")]])])])).toOption.getD .null)
    rfl

end HouseCall
